import Mathlib

/-!
Verification of the consumption/temporal disaggregation core of the
`master-thesis-dissaggregator` repository.

The definitions below are a shallow embedding of
`src/data_processing/consumption.py` and `src/data_processing/temporal.py`:
pandas tables become association lists, machine floats become `ℚ`
(with `Option ℚ` where NaN can occur, and a dedicated value type where the
distinction between NaN and infinity matters), and fallible code returns
`Except String`.
-/

attribute [local semireducible] Rat.add Rat.mul Rat.inv Rat.sub

set_option maxRecDepth 100000

namespace Dissag

/-- Rows of a value table: one rational per value column. -/
abbrev Row := List ℚ

/-- Generic association-list lookup (first match wins), mirroring how the
Python code indexes pandas objects by label. -/
def plookup {κ α : Type} [DecidableEq κ] : List (κ × α) → κ → Option α
  | [], _ => none
  | (k, v) :: rest, k0 => if k = k0 then some v else plookup rest k0

/-- `df.loc[k] = v` semantics: replace the row if the label exists
(keeping its position), otherwise append it at the end. -/
def setLoc : List (ℤ × Row) → ℤ → Row → List (ℤ × Row)
  | [], k, v => [(k, v)]
  | (k0, v0) :: rest, k, v =>
      if k0 = k then (k, v) :: rest else (k0, v0) :: setLoc rest k v

/-- Lookup of a row by its integer label. -/
def lookupRow : List (ℤ × Row) → ℤ → Option Row
  | [], _ => none
  | (k, v) :: rest, k0 => if k = k0 then some v else lookupRow rest k0

/-- Index entries of the UGR range table: either a single WZ sector code or a
hyphenated range string "A-B" (`isinstance(wz_code, str) and "-" in wz_code`). -/
inductive WZKey where
  | single (wz : ℤ)
  | range (a b : ℤ)
deriving DecidableEq, Repr

/-- `range(start_wz, end_wz + 1)` from the Python source: the member sector
codes of a range entry (empty when `a > b`, as in Python). -/
def rangeMembers (a b : ℤ) : List ℤ :=
  (List.range (b + 1 - a).toNat).map (fun i : ℕ => a + (i : ℤ))

/-- `employees_by_WZ = employees_by_industry_sector_and_regional_ids.sum(axis=1)`:
national employee totals per sector. -/
def employeesByWZ (empRegional : List (ℤ × Row)) : List (ℤ × ℚ) :=
  empRegional.map (fun p => (p.1, p.2.sum))

/-- `employees_by_WZ.get(wz, 0)`. -/
def empGetD (emp : List (ℤ × ℚ)) (wz : ℤ) : ℚ := (plookup emp wz).getD 0

/-- Loop body of `resolve_ugr_industry_sector_ranges_by_employees`
(consumption.py lines 217-249): distribute one table row into the
accumulated single-sector table. -/
def processRow (emp : List (ℤ × ℚ)) (acc : List (ℤ × Row)) :
    WZKey → Row → List (ℤ × Row)
  | .single wz, row => setLoc acc wz row
  | .range a b, row =>
      let members := rangeMembers a b
      let totalEmployeesInRange := (members.map (empGetD emp)).sum
      if 0 < totalEmployeesInRange then
        members.foldl
          (fun ac wz =>
            if (plookup emp wz).isSome then
              setLoc ac wz (row.map (fun v => v * (empGetD emp wz / totalEmployeesInRange)))
            else ac)
          acc
      else
        members.foldl
          (fun ac wz => setLoc ac wz (row.map (fun v => v / (members.length : ℚ))))
          acc

/-- The full accumulation loop over all rows of the range table. -/
def resolveRows (emp : List (ℤ × ℚ)) (tbl : List (WZKey × Row)) : List (ℤ × Row) :=
  tbl.foldl (fun acc p => processRow emp acc p.1 p.2) []

/-- `ugr_data_ranges.sum().sum()`: grand total of the input table. -/
def grandTotalIn (tbl : List (WZKey × Row)) : ℚ := (tbl.map (fun p => p.2.sum)).sum

/-- `consumption_by_wz.sum().sum()`: grand total of the resolved table. -/
def grandTotalOut (t : List (ℤ × Row)) : ℚ := (t.map (fun p => p.2.sum)).sum

/-- The final conservation test of the resolver (consumption.py lines 260-266):
`relative_diff = abs(total_ugr - total_wz) / max(total_ugr, total_wz)` followed
by `if relative_diff > 0.00001: raise`.  This predicate is true exactly when no
error is raised, including the IEEE edge cases of the float division: with
`max = 0` the quotient is NaN when the difference is 0 (NaN > 1e-5 is false,
pass) and +infinity when it is positive (fail); with `max < 0` the quotient is
non-positive and the test passes. -/
def conservationOk (totalUgr totalWz : ℚ) : Bool :=
  let d := |totalUgr - totalWz|
  let m := max totalUgr totalWz
  if m = 0 then decide (d = 0) else decide (d / m ≤ 1 / 100000)

/-- `resolve_ugr_industry_sector_ranges_by_employees` (consumption.py
lines 189-268): distribute range-coded national totals over individual sector
codes proportionally to employment (equal split on zero employment), then
validate grand-total conservation and raise `ValueError` on violation. -/
def resolve_ugr_industry_sector_ranges_by_employees
    (ugrDataRanges : List (WZKey × Row)) (empRegional : List (ℤ × Row)) :
    Except String (List (ℤ × Row)) :=
  let emp := employeesByWZ empRegional
  let out := resolveRows emp ugrDataRanges
  if conservationOk (grandTotalIn ugrDataRanges) (grandTotalOut out) then .ok out
  else .error "Consumption sum mismatch between ugr_data_ranges and consumption_by_wz"

theorem lookupRow_setLoc_self (t : List (ℤ × Row)) (k : ℤ) (v : Row) :
    lookupRow (setLoc t k v) k = some v := by
  induction t with
  | nil => simp [setLoc, lookupRow]
  | cons hd tl ih =>
      by_cases h : hd.1 = k
      · simp [setLoc, h, lookupRow]
      · simp [setLoc, h, lookupRow, ih]

theorem lookupRow_setLoc_ne (t : List (ℤ × Row)) (k k' : ℤ) (v : Row)
    (h : k ≠ k') : lookupRow (setLoc t k v) k' = lookupRow t k' := by
  induction t with
  | nil => simp [setLoc, lookupRow, h]
  | cons hd tl ih =>
      by_cases h0 : hd.1 = k
      · simp [setLoc, h0, lookupRow, h]
      · simp [setLoc, h0, lookupRow, ih]

theorem lookupRow_foldl_setLoc_notMem (l : List ℤ) (v : Row)
    (acc : List (ℤ × Row)) (wz : ℤ) (h : wz ∉ l) :
    lookupRow (l.foldl (fun ac u => setLoc ac u v) acc) wz = lookupRow acc wz := by
  induction l generalizing acc with
  | nil => rfl
  | cons hd tl ih =>
      have hne : hd ≠ wz := fun hh => h (hh ▸ List.mem_cons_self hd tl)
      have htl : wz ∉ tl := fun hh => h (List.mem_cons_of_mem hd hh)
      simp only [List.foldl_cons]
      rw [ih _ htl, lookupRow_setLoc_ne _ _ _ _ hne]

theorem lookupRow_foldl_setLoc_mem (l : List ℤ) (v : Row)
    (acc : List (ℤ × Row)) (wz : ℤ) (hnd : l.Nodup) (h : wz ∈ l) :
    lookupRow (l.foldl (fun ac u => setLoc ac u v) acc) wz = some v := by
  induction l generalizing acc with
  | nil => cases h
  | cons hd tl ih =>
      simp only [List.foldl_cons]
      rcases List.mem_cons.mp h with h0 | h0
      · subst h0
        have htl : wz ∉ tl := (List.nodup_cons.mp hnd).1
        rw [lookupRow_foldl_setLoc_notMem _ _ _ _ htl, lookupRow_setLoc_self]
      · exact ih _ (List.nodup_cons.mp hnd).2 h0

theorem rangeMembers_nodup (a b : ℤ) : (rangeMembers a b).Nodup := by
  unfold rangeMembers
  refine List.Nodup.map ?_ (List.nodup_range _)
  intro i j hij
  simp only at hij
  omega

/-- Claim C4: `resolve_ugr_industry_sector_ranges_by_employees` either raises a
`ValueError` or returns a table whose grand total passes the code's
conservation test; in particular, whenever the totals' maximum is positive the
returned table's grand total matches the input's within `1e-5` relative
error. -/
theorem resolve_ugr_conservation (ugr : List (WZKey × Row))
    (empRegional : List (ℤ × Row)) (out : List (ℤ × Row))
    (h : resolve_ugr_industry_sector_ranges_by_employees ugr empRegional = .ok out) :
    conservationOk (grandTotalIn ugr) (grandTotalOut out) = true ∧
      (0 < max (grandTotalIn ugr) (grandTotalOut out) →
        |grandTotalIn ugr - grandTotalOut out| ≤
          max (grandTotalIn ugr) (grandTotalOut out) / 100000) := by
  simp only [resolve_ugr_industry_sector_ranges_by_employees] at h
  split at h
  next hc =>
    have hout := Except.ok.inj h
    subst hout
    refine ⟨hc, fun hm => ?_⟩
    simp only [conservationOk] at hc
    rw [if_neg (ne_of_gt hm)] at hc
    have hle := of_decide_eq_true hc
    have h2 := (div_le_iff₀ hm).mp hle
    linarith
  next hc => cases h

/-- Witness for C4 at a concrete input: a table with one single-code row and
one range row over an employment table resolves successfully, and the claimed
conservation bound holds there. -/
theorem resolve_ugr_conservation_witness :
    (0 : ℚ) <
        max (grandTotalIn [(WZKey.single 9, [(6 : ℚ)]), (WZKey.range 5 6, [(10 : ℚ)])])
          (grandTotalOut
            (resolveRows (employeesByWZ [((5 : ℤ), [(1 : ℚ), 2]), ((6 : ℤ), [(1 : ℚ)])])
              [(WZKey.single 9, [(6 : ℚ)]), (WZKey.range 5 6, [(10 : ℚ)])])) ∧
      |grandTotalIn [(WZKey.single 9, [(6 : ℚ)]), (WZKey.range 5 6, [(10 : ℚ)])] -
            grandTotalOut
              (resolveRows (employeesByWZ [((5 : ℤ), [(1 : ℚ), 2]), ((6 : ℤ), [(1 : ℚ)])])
                [(WZKey.single 9, [(6 : ℚ)]), (WZKey.range 5 6, [(10 : ℚ)])])| ≤
        max (grandTotalIn [(WZKey.single 9, [(6 : ℚ)]), (WZKey.range 5 6, [(10 : ℚ)])])
            (grandTotalOut
              (resolveRows (employeesByWZ [((5 : ℤ), [(1 : ℚ), 2]), ((6 : ℤ), [(1 : ℚ)])])
                [(WZKey.single 9, [(6 : ℚ)]), (WZKey.range 5 6, [(10 : ℚ)])])) /
          100000 := by
  have h := resolve_ugr_conservation
    [(WZKey.single 9, [(6 : ℚ)]), (WZKey.range 5 6, [(10 : ℚ)])]
    [((5 : ℤ), [(1 : ℚ), 2]), ((6 : ℤ), [(1 : ℚ)])]
    (resolveRows (employeesByWZ [((5 : ℤ), [(1 : ℚ), 2]), ((6 : ℤ), [(1 : ℚ)])])
      [(WZKey.single 9, [(6 : ℚ)]), (WZKey.range 5 6, [(10 : ℚ)])])
    rfl
  exact ⟨by decide, h.2 (by decide)⟩

/-- Claim C7: in `resolve_ugr_industry_sector_ranges_by_employees`, a range
entry "A-B" whose member sectors have zero total employment is split equally:
each member sector receives the range's value divided by the number of member
sectors, in every value column. -/
theorem equal_split_fallback (emp : List (ℤ × ℚ)) (acc : List (ℤ × Row))
    (a b : ℤ) (row : Row) (wz : ℤ)
    (hmem : wz ∈ rangeMembers a b)
    (hzero : ((rangeMembers a b).map (empGetD emp)).sum = 0) :
    lookupRow (processRow emp acc (WZKey.range a b) row) wz =
      some (row.map (fun v => v / ((rangeMembers a b).length : ℚ))) := by
  simp only [processRow, hzero, lt_irrefl, if_false]
  exact lookupRow_foldl_setLoc_mem _ _ _ _ (rangeMembers_nodup a b) hmem

/-- Witness for C7 at a concrete input: range "5-6" with zero total employment
and value column [10, 4] gives each of sectors 5 and 6 the row [5, 2]. -/
theorem equal_split_fallback_witness :
    lookupRow (processRow [] [] (WZKey.range 5 6) [10, 4]) 5 = some [5, 2] := by
  have h := equal_split_fallback [] [] 5 6 [10, 4] 5 (by decide) (by decide)
  rw [h]
  decide

/-- Year validation and adjustment of `get_total_gas_industry_self_consuption`
(consumption.py lines 286-293): years outside 2000-2050 raise a `ValueError`;
inside that range, years below 2007 are replaced by 2007 and years from 2020
on are replaced by 2019 before any data lookup happens. -/
def clamp_self_consumption_year (year : ℤ) : Except String ℤ :=
  if year < 2000 ∨ 2050 < year then .error "`year` must be between 2000 and 2050"
  else if year < 2007 then .ok 2007
  else if 2020 ≤ year then .ok 2019
  else .ok year

/-- `get_total_gas_industry_self_consuption` (consumption.py lines 271-356).
The cache and the German energy-balance file are external data providers: both
are abstracted into the single total function `table`, defined on every year
the clamped lookup can reach (the cached value and the freshly computed value
for a year coincide by construction of the cache).  All logic that is local to
the function - validation and clamping of the year - is embedded exactly. -/
def get_total_gas_industry_self_consuption (table : ℤ → ℚ) (year : ℤ) :
    Except String ℚ :=
  (clamp_self_consumption_year year).map table

/-- Claim C9: for every year between 2000 and 2050 the gas self-consumption
lookup never fails: years below 2007 are clamped to 2007 and years from 2020
on are clamped to 2019, and the returned value is the value of the clamped
year; only a year outside 2000-2050 is rejected with an error. -/
theorem gas_self_consumption_year_clamping (table : ℤ → ℚ) (year : ℤ) :
    (2000 ≤ year → year ≤ 2050 →
      ∃ y, clamp_self_consumption_year year = .ok y ∧
        2007 ≤ y ∧ y ≤ 2019 ∧
        get_total_gas_industry_self_consuption table year = .ok (table y) ∧
        (year < 2007 → y = 2007) ∧ (2020 ≤ year → y = 2019) ∧
        (2007 ≤ year → year < 2020 → y = year)) ∧
    (year < 2000 ∨ 2050 < year →
      ∃ msg, get_total_gas_industry_self_consuption table year = .error msg) := by
  unfold get_total_gas_industry_self_consuption clamp_self_consumption_year
  by_cases h1 : year < 2000 ∨ 2050 < year
  · rw [if_pos h1]
    exact ⟨fun h2 h3 => absurd h1 (by omega), fun _ => ⟨_, rfl⟩⟩
  · rw [if_neg h1]
    refine ⟨fun h2 h3 => ?_, fun hcon => absurd hcon h1⟩
    by_cases h4 : year < 2007
    · rw [if_pos h4]
      exact ⟨2007, rfl, by omega, by omega, rfl, fun _ => rfl,
        fun h5 => absurd h5 (by omega), fun h5 _ => absurd h5 (by omega)⟩
    · rw [if_neg h4]
      by_cases h5 : 2020 ≤ year
      · rw [if_pos h5]
        exact ⟨2019, rfl, by omega, by omega, rfl,
          fun h6 => absurd h6 (by omega), fun _ => rfl,
          fun _ h6 => absurd h6 (by omega)⟩
      · rw [if_neg h5]
        exact ⟨year, rfl, by omega, by omega, rfl,
          fun h6 => absurd h6 (by omega), fun h6 => absurd h6 (by omega),
          fun _ _ => rfl⟩

/-- Witness for C9 at concrete inputs: the year 2035 is clamped to 2019 and
returns the table value of 2019 for a concrete table. -/
theorem gas_self_consumption_year_clamping_witness :
    ∃ y, clamp_self_consumption_year 2035 = .ok y ∧
      2007 ≤ y ∧ y ≤ 2019 ∧
      get_total_gas_industry_self_consuption (fun z => (z : ℚ)) 2035 =
        .ok ((y : ℤ) : ℚ) ∧
      ((2035 : ℤ) < 2007 → y = 2007) ∧ ((2020 : ℤ) ≤ 2035 → y = 2019) ∧
      ((2007 : ℤ) ≤ 2035 → (2035 : ℤ) < 2020 → y = 2035) :=
  (gas_self_consumption_year_clamping (fun z => (z : ℚ)) 2035).1
    (by decide) (by decide)

/-- Value type of a float cell in the self-generation computation: NaN and the
two infinities must be distinguished from finite values because `fillna(1)`
replaces only NaN. -/
inductive FV where
  | num (q : ℚ)
  | nan
  | pinf
  | ninf
deriving DecidableEq, Repr

/-- IEEE division of two finite floats: `0/0 = NaN`, `x/0 = +-inf` for
nonzero `x`. -/
def fdivQ (a b : ℚ) : FV :=
  if b = 0 then (if a = 0 then .nan else if 0 < a then .pinf else .ninf)
  else .num (a / b)

/-- IEEE multiplication of a float cell by a finite scalar. -/
def fmulQ (x : FV) (c : ℚ) : FV :=
  match x with
  | .num a => .num (a * c)
  | .nan => .nan
  | .pinf => if c = 0 then .nan else if 0 < c then .pinf else .ninf
  | .ninf => if c = 0 then .nan else if 0 < c then .ninf else .pinf

/-- IEEE addition of a finite scalar and a float cell. -/
def faddQ (c : ℚ) (x : FV) : FV :=
  match x with
  | .num a => .num (c + a)
  | .nan => .nan
  | .pinf => .pinf
  | .ninf => .ninf

/-- IEEE division of a finite scalar by a float cell (a finite value divided
by an infinity is 0; signed zeros are identified in this embedding). -/
def fdivQF (a : ℚ) (x : FV) : FV :=
  match x with
  | .num b => fdivQ a b
  | .nan => .nan
  | .pinf => .num 0
  | .ninf => .num 0

/-- `df.fillna(1)` on one cell: NaN becomes 1, everything else is kept. -/
def fillna1 (x : FV) : FV :=
  match x with
  | .nan => .num 1
  | y => y

/-- One sector row of the input of `calculate_self_generation`:
`power_incl_selfgen[MWh]`, `gas_no_selfgen[MWh]` and the
`electricity_self_generation` decomposition factor. -/
structure SectorRow where
  power : ℚ
  gasNo : ℚ
  selfgenShare : ℚ
deriving DecidableEq, Repr

/-- `power_self_generation[MWh] = power_incl_selfgen[MWh] * selfgen_factor_power`
(consumption.py lines 392-394). -/
def powerSelfGeneration (r : SectorRow) : ℚ := r.power * r.selfgenShare

/-- `df["power_self_generation[MWh]"].sum()`. -/
def totalPowerSelfGeneration (rows : List SectorRow) : ℚ :=
  (rows.map powerSelfGeneration).sum

/-- `factor_selfgen_of_total_power` (consumption.py lines 397-399): each
sector's share of the national power self-generation, an IEEE division that
yields NaN (0/0) or an infinity (x/0) when the national total is zero. -/
def factorSelfgenOfTotalPower (rows : List SectorRow) (r : SectorRow) : FV :=
  fdivQ (powerSelfGeneration r) (totalPowerSelfGeneration rows)

/-- `gas_only_selfgen[MWh]` (consumption.py lines 402-404). -/
def gasOnlySelfgen (rows : List SectorRow) (totalGasSelf : ℚ) (r : SectorRow) : FV :=
  fmulQ (factorSelfgenOfTotalPower rows r) totalGasSelf

/-- `gas_incl_selfgen[MWh] = gas_no_selfgen[MWh] + gas_only_selfgen[MWh]`
(consumption.py lines 405-407). -/
def gasInclSelfgen (rows : List SectorRow) (totalGasSelf : ℚ) (r : SectorRow) : FV :=
  faddQ r.gasNo (gasOnlySelfgen rows totalGasSelf r)

/-- `factor_gas_no_selfgen = gas_no_selfgen[MWh] / gas_incl_selfgen[MWh]`
followed by `df.fillna(1)` (consumption.py lines 410-415). -/
def factorGasNoSelfgen (rows : List SectorRow) (totalGasSelf : ℚ) (r : SectorRow) : FV :=
  fillna1 (fdivQF r.gasNo (gasInclSelfgen rows totalGasSelf r))

theorem powerSelfGeneration_le_total (rows : List SectorRow) (r : SectorRow)
    (hr : r ∈ rows)
    (hnn : ∀ s ∈ rows, 0 ≤ s.power ∧ 0 ≤ s.gasNo ∧ 0 ≤ s.selfgenShare) :
    powerSelfGeneration r ≤ totalPowerSelfGeneration rows := by
  unfold totalPowerSelfGeneration
  refine List.single_le_sum (fun q hq => ?_) _ (List.mem_map_of_mem _ hr)
  rcases List.mem_map.mp hq with ⟨s, hs, rfl⟩
  have := hnn s hs
  exact mul_nonneg this.1 this.2.2

/-- Claim C8: in `calculate_self_generation`, for non-negative inputs the
ratio `factor_gas_no_selfgen` is a finite number in `[0, 1]` for every sector
whose `gas_incl_selfgen` is positive, and the NaN produced by the `0/0`
division where `gas_incl_selfgen` is zero is filled with exactly `1`. -/
theorem factor_gas_no_selfgen_bounds (rows : List SectorRow) (totalGasSelf : ℚ)
    (r : SectorRow) (hr : r ∈ rows)
    (hnn : ∀ s ∈ rows, 0 ≤ s.power ∧ 0 ≤ s.gasNo ∧ 0 ≤ s.selfgenShare)
    (hT : 0 ≤ totalGasSelf) :
    (∀ x : ℚ, gasInclSelfgen rows totalGasSelf r = .num x → 0 < x →
      ∃ f : ℚ, factorGasNoSelfgen rows totalGasSelf r = .num f ∧ 0 ≤ f ∧ f ≤ 1) ∧
    (gasInclSelfgen rows totalGasSelf r = .num 0 →
      factorGasNoSelfgen rows totalGasSelf r = .num 1) := by
  have hg : 0 ≤ r.gasNo := (hnn r hr).2.1
  have hpsg : 0 ≤ powerSelfGeneration r :=
    mul_nonneg (hnn r hr).1 (hnn r hr).2.2
  by_cases htot : totalPowerSelfGeneration rows = 0
  · -- the national power self-generation total is zero: the share is NaN or an
    -- infinity, so gas_incl_selfgen is never a finite number here
    have hshare : factorSelfgenOfTotalPower rows r = .nan ∨
        factorSelfgenOfTotalPower rows r = .pinf := by
      unfold factorSelfgenOfTotalPower fdivQ
      rw [if_pos htot]
      by_cases h0 : powerSelfGeneration r = 0
      · exact Or.inl (by rw [if_pos h0])
      · exact Or.inr (by rw [if_neg h0, if_pos (lt_of_le_of_ne hpsg (Ne.symm h0))])
    have hnotnum : ∀ x : ℚ, gasInclSelfgen rows totalGasSelf r ≠ .num x := by
      intro x
      unfold gasInclSelfgen gasOnlySelfgen
      rcases hshare with hs | hs
      · rw [hs]; simp [fmulQ, faddQ]
      · rw [hs]
        unfold fmulQ faddQ
        by_cases hT0 : totalGasSelf = 0
        · simp [hT0]
        · rw [if_neg hT0, if_pos (lt_of_le_of_ne hT (Ne.symm hT0))]
          simp
    exact ⟨fun x hx => absurd hx (hnotnum x), fun hx => absurd hx (hnotnum 0)⟩
  · have htpos : 0 < totalPowerSelfGeneration rows := by
      have hnng : 0 ≤ totalPowerSelfGeneration rows := by
        unfold totalPowerSelfGeneration
        refine List.sum_nonneg (fun q hq => ?_)
        rcases List.mem_map.mp hq with ⟨s, hs, rfl⟩
        have := hnn s hs
        exact mul_nonneg this.1 this.2.2
      exact lt_of_le_of_ne hnng (Ne.symm htot)
    set sh : ℚ := powerSelfGeneration r / totalPowerSelfGeneration rows with hsh
    have hshnn : 0 ≤ sh := div_nonneg hpsg (le_of_lt htpos)
    have hshare : factorSelfgenOfTotalPower rows r = .num sh := by
      unfold factorSelfgenOfTotalPower fdivQ
      rw [if_neg htot]
    have hincl : gasInclSelfgen rows totalGasSelf r =
        .num (r.gasNo + sh * totalGasSelf) := by
      unfold gasInclSelfgen gasOnlySelfgen
      rw [hshare]
      simp [fmulQ, faddQ]
    have hgo : 0 ≤ sh * totalGasSelf := mul_nonneg hshnn hT
    constructor
    · intro x hx hxpos
      rw [hincl] at hx
      have hxval : x = r.gasNo + sh * totalGasSelf := (FV.num.inj hx).symm
      refine ⟨r.gasNo / x, ?_, div_nonneg hg (le_of_lt hxpos), ?_⟩
      · unfold factorGasNoSelfgen
        rw [hincl, ← hxval]
        simp only [fdivQF, fdivQ, if_neg (ne_of_gt hxpos)]
        rfl
      · apply div_le_one_of_le₀
        · rw [hxval]; linarith
        · exact le_of_lt hxpos
    · intro hx
      rw [hincl] at hx
      have hxval : r.gasNo + sh * totalGasSelf = 0 := FV.num.inj hx
      have hg0 : r.gasNo = 0 := by linarith
      unfold factorGasNoSelfgen
      rw [hincl, hxval, hg0]
      simp [fdivQF, fdivQ, fillna1]

/-- Witness for C8 at a concrete input: one sector with power 100, gas 50 and
self-generation share 1/10, with a national gas self-generation total of 30,
gets `gas_incl_selfgen = 80` and a `factor_gas_no_selfgen` of 5/8. -/
theorem factor_gas_no_selfgen_bounds_witness :
    ∃ f : ℚ,
      factorGasNoSelfgen [⟨100, 50, 1/10⟩] 30 ⟨100, 50, 1/10⟩ = .num f ∧
        0 ≤ f ∧ f ≤ 1 := by
  have h := factor_gas_no_selfgen_bounds [⟨100, 50, 1/10⟩] 30 ⟨100, 50, 1/10⟩
    (by decide) (by decide) (by decide)
  exact h.1 80 (by decide) (by decide)

/-- A sector-by-region matrix whose cells may be NaN (`none`). -/
abbrev OMat := List (List (Option ℚ))

/-- A sector-by-region matrix of plain numbers (the employment matrix). -/
abbrev QMat := List (List ℚ)

/-- `spez_*_lk * bze_je_lk_wz` (consumption.py lines 1149-1151): cell-wise
product of a specific-consumption matrix with the employment matrix; a NaN
cell stays NaN. -/
def cubeMul (spez : OMat) (bze : QMat) : OMat :=
  List.zipWith (fun r1 r2 => List.zipWith (fun x e => x.map (fun q => q * e)) r1 r2)
    spez bze

/-- `df.isnull().any().any()`: the matrix contains at least one NaN cell. -/
def hasNaN (m : OMat) : Bool := m.any (fun r => r.any (fun x => x.isNone))

/-- `df.sum().sum()` with pandas' default `skipna=True`: NaN cells contribute
nothing to the grand total. -/
def osum (m : OMat) : ℚ := (m.map (fun r => (r.map (fun x => x.getD 0)).sum)).sum

/-- `np.isclose(a, b, rtol, atol)`: `abs(a - b) <= atol + rtol * abs(b)`
(both totals are finite here, the NaN case is handled before the call). -/
def npIsClose (rtol atol a b : ℚ) : Bool := decide (|a - b| ≤ atol + rtol * |b|)

/-- Final validation block of
`calculate_iteratively_industry_regional_consumption` (consumption.py lines
1149-1187): multiply the adjusted specific-consumption matrices with the
employment matrix, raise on any NaN cell, raise when a cube's grand total is
not within `np.isclose(..., rtol=0.01)` (default `atol=1e-8`) of the national
UGR sector-total sum of its carrier, and only then return the three cubes. -/
def validate_regional_consumption (spezSvLk spezGvLk spezPetrolLk : OMat)
    (bze : QMat) (sumPowerUgr sumGasUgr sumPetrolUgr : ℚ) :
    Except String (OMat × OMat × OMat) :=
  let totalPower := cubeMul spezSvLk bze
  let totalGas := cubeMul spezGvLk bze
  let totalPetrol := cubeMul spezPetrolLk bze
  if hasNaN totalPower then .error "total_power_consumption contains NaN values"
  else if hasNaN totalGas then .error "total_gas_consumption contains NaN values"
  else if hasNaN totalPetrol then .error "total_petrol_consumption contains NaN values"
  else if ¬ npIsClose (1/100) (1/100000000) sumGasUgr (osum totalGas) then
    .error "total_gas_consumption is not equal to sector_energy_consumption_ugr"
  else if ¬ npIsClose (1/100) (1/100000000) sumPowerUgr (osum totalPower) then
    .error "total_power_consumption is not equal to sector_energy_consumption_ugr"
  else if ¬ npIsClose (1/100) (1/100000000) sumPetrolUgr (osum totalPetrol) then
    .error "total_petrol_consumption is not equal to sector_energy_consumption_ugr"
  else .ok (totalPower, totalGas, totalPetrol)

/-- Claim C1: for every energy carrier, the reconciliation engine only returns
consumption cubes that contain no NaN cell and whose grand total is within the
`np.isclose` 1-percent relative tolerance of the national sector-total sum of
that carrier; when any of these checks fails for any carrier, it raises a hard
error instead of returning. -/
theorem reconciled_cube_validation (spezSvLk spezGvLk spezPetrolLk : OMat)
    (bze : QMat) (sumPowerUgr sumGasUgr sumPetrolUgr : ℚ) :
    (∀ out,
      validate_regional_consumption spezSvLk spezGvLk spezPetrolLk bze
          sumPowerUgr sumGasUgr sumPetrolUgr = .ok out →
      out = (cubeMul spezSvLk bze, cubeMul spezGvLk bze, cubeMul spezPetrolLk bze) ∧
      hasNaN (cubeMul spezSvLk bze) = false ∧
      hasNaN (cubeMul spezGvLk bze) = false ∧
      hasNaN (cubeMul spezPetrolLk bze) = false ∧
      |sumPowerUgr - osum (cubeMul spezSvLk bze)| ≤
        1/100000000 + (1/100) * |osum (cubeMul spezSvLk bze)| ∧
      |sumGasUgr - osum (cubeMul spezGvLk bze)| ≤
        1/100000000 + (1/100) * |osum (cubeMul spezGvLk bze)| ∧
      |sumPetrolUgr - osum (cubeMul spezPetrolLk bze)| ≤
        1/100000000 + (1/100) * |osum (cubeMul spezPetrolLk bze)|) ∧
    ((hasNaN (cubeMul spezSvLk bze) = true ∨
      hasNaN (cubeMul spezGvLk bze) = true ∨
      hasNaN (cubeMul spezPetrolLk bze) = true ∨
      npIsClose (1/100) (1/100000000) sumPowerUgr (osum (cubeMul spezSvLk bze)) = false ∨
      npIsClose (1/100) (1/100000000) sumGasUgr (osum (cubeMul spezGvLk bze)) = false ∨
      npIsClose (1/100) (1/100000000) sumPetrolUgr (osum (cubeMul spezPetrolLk bze)) = false) →
      ∃ msg, validate_regional_consumption spezSvLk spezGvLk spezPetrolLk bze
          sumPowerUgr sumGasUgr sumPetrolUgr = .error msg) := by
  unfold validate_regional_consumption
  by_cases h1 : hasNaN (cubeMul spezSvLk bze) = true
  · rw [if_pos h1]
    exact ⟨fun out hout => Except.noConfusion hout, fun _ => ⟨_, rfl⟩⟩
  · rw [if_neg h1]
    by_cases h2 : hasNaN (cubeMul spezGvLk bze) = true
    · rw [if_pos h2]
      exact ⟨fun out hout => Except.noConfusion hout, fun _ => ⟨_, rfl⟩⟩
    · rw [if_neg h2]
      by_cases h3 : hasNaN (cubeMul spezPetrolLk bze) = true
      · rw [if_pos h3]
        exact ⟨fun out hout => Except.noConfusion hout, fun _ => ⟨_, rfl⟩⟩
      · rw [if_neg h3]
        by_cases h4 : npIsClose (1/100) (1/100000000) sumGasUgr
            (osum (cubeMul spezGvLk bze)) = true
        · rw [if_neg (not_not_intro h4)]
          by_cases h5 : npIsClose (1/100) (1/100000000) sumPowerUgr
              (osum (cubeMul spezSvLk bze)) = true
          · rw [if_neg (not_not_intro h5)]
            by_cases h6 : npIsClose (1/100) (1/100000000) sumPetrolUgr
                (osum (cubeMul spezPetrolLk bze)) = true
            · rw [if_neg (not_not_intro h6)]
              refine ⟨fun out hout => ?_, fun hbad => ?_⟩
              · refine ⟨(Except.ok.inj hout).symm,
                  Bool.not_eq_true _ ▸ h1, Bool.not_eq_true _ ▸ h2,
                  Bool.not_eq_true _ ▸ h3,
                  of_decide_eq_true h5, of_decide_eq_true h4,
                  of_decide_eq_true h6⟩
              · rcases hbad with hb | hb | hb | hb | hb | hb
                · exact absurd hb h1
                · exact absurd hb h2
                · exact absurd hb h3
                · rw [hb] at h5; exact Bool.noConfusion h5
                · rw [hb] at h4; exact Bool.noConfusion h4
                · rw [hb] at h6; exact Bool.noConfusion h6
            · rw [if_pos h6]
              exact ⟨fun out hout => Except.noConfusion hout, fun _ => ⟨_, rfl⟩⟩
          · rw [if_pos h5]
            exact ⟨fun out hout => Except.noConfusion hout, fun _ => ⟨_, rfl⟩⟩
        · rw [if_pos h4]
          exact ⟨fun out hout => Except.noConfusion hout, fun _ => ⟨_, rfl⟩⟩

/-- Witness for C1 at a concrete input: one sector, one region, specific
consumption 20, 2 employees, all three cubes total 40 and the national sums
equal 40, so validation succeeds with the claimed properties. -/
theorem reconciled_cube_validation_witness :
    hasNaN (cubeMul [[some 20]] [[2]]) = false ∧
      |(40 : ℚ) - osum (cubeMul [[some 20]] [[2]])| ≤
        1/100000000 + (1/100) * |osum (cubeMul [[some 20]] [[2]])| := by
  have h := (reconciled_cube_validation [[some 20]] [[some 20]] [[some 20]]
      [[2]] 40 40 40).1
    (cubeMul [[some 20]] [[2]], cubeMul [[some 20]] [[2]], cubeMul [[some 20]] [[2]])
    (by rfl)
  exact ⟨h.2.1, h.2.2.2.2.1⟩

/-- `df.sum()` over the sector axis: per-region column sums of a
sector-by-region matrix (e.g. `gv_lk_wz_e_int.sum()`). -/
def colSums : QMat → List ℚ
  | [] => []
  | r :: rs => rs.foldl (fun acc row => List.zipWith (· + ·) acc row) r

/-- `bze_je_lk_wz * spez_angepasst`: cell-wise product of the employment
matrix and a specific-consumption matrix. -/
def matMulElem (a b : QMat) : QMat :=
  List.zipWith (fun r1 r2 => List.zipWith (· * ·) r1 r2) a b

/-- `spez_angepasst * factors.transpose()`: multiply every sector row
column-wise by the per-region correction factors. -/
def mulCols (m : QMat) (f : List ℚ) : QMat :=
  m.map (fun row => List.zipWith (· * ·) row f)

/-- `spez_angepasst[spez_angepasst < 10] = 10`: the clamp floor at
10 MWh per employee. -/
def clampFloor10 (m : QMat) : QMat :=
  m.map (fun row => row.map (fun x => if x < 10 then 10 else x))

/-- `spez_angepasst * c`: rescale the whole matrix by a scalar. -/
def scaleMat (m : QMat) (c : ℚ) : QMat :=
  m.map (fun row => row.map (fun x => x * c))

/-- The per-region correction factors 'Anpassungsfaktor' (consumption.py lines
883-892 for power, 966-975 for gas): 1.0 wherever the normalized relative
error `(real - model) / mean` is at most 0.1 in absolute value, and
`real / model` elsewhere. -/
def regionFactors (real model : List ℚ) (meanValue : ℚ) : List ℚ :=
  List.zipWith
    (fun r m => if 1/10 < |(r - m) / meanValue| then r / m else 1) real model

/-- Final state of one region-axis inner loop: the adjusted
specific-consumption matrix, the model consumption matrix, the number of
passes of the `while y` loop that ran, and whether the loop left early
through its correction-factor-sum test. -/
structure RegionLoopResult where
  spez : QMat
  model : QMat
  iters : ℕ
  earlyExit : Bool
deriving DecidableEq, Repr

/-- The region-axis inner loop (`while y`, consumption.py lines 879-907 for
power and 964-990 for gas/petrol): on each pass recompute the per-region model
totals and the correction factors; leave when the factor sum equals
`exitConst` (401 for power, 400 for gas and petrol); otherwise, while fewer
than 10 passes have run, multiply the specific consumption column-wise by the
factors, clamp the floor at 10, rescale by `sum(real) / sum(model)` and
recompute the model; the pass counter `i` mirrors the Python variable.  The
fuel argument only feeds Lean's termination; called with fuel 10 it is never
exhausted before the `i < 10` budget check ends the loop. -/
def regionAxisLoop (exitConst : ℚ) (bze : QMat) (real : List ℚ)
    (meanValue : ℚ) : ℕ → ℕ → QMat → QMat → RegionLoopResult
  | 0, i, spez, model => ⟨spez, model, i, false⟩
  | fuel + 1, i, spez, model =>
    let modelPerRegion := colSums model
    let factors := regionFactors real modelPerRegion meanValue
    if factors.sum = exitConst then ⟨spez, model, i + 1, true⟩
    else if i + 1 < 10 then
      let spez3 := scaleMat (clampFloor10 (mulCols spez factors))
        (real.sum / modelPerRegion.sum)
      regionAxisLoop exitConst bze real meanValue fuel (i + 1) spez3
        (matMulElem bze spez3)
    else ⟨spez, model, i + 1, false⟩

/-- The power region-axis loop: its early-exit test is
`sv_LK["Anpassungsfaktor"].sum() == 401` (consumption.py line 893). -/
def powerRegionAxisLoop (bze : QMat) (real : List ℚ) (meanValue : ℚ)
    (spez model : QMat) : RegionLoopResult :=
  regionAxisLoop 401 bze real meanValue 10 0 spez model

/-- The gas region-axis loop: its early-exit test is
`gv_LK["Anpassungsfaktor"].sum() == 400` (consumption.py line 976). -/
def gasRegionAxisLoop (bze : QMat) (real : List ℚ) (meanValue : ℚ)
    (spez model : QMat) : RegionLoopResult :=
  regionAxisLoop 400 bze real meanValue 10 0 spez model

/-- The petrol region-axis loop: its early-exit test is
`petrol_LK["Anpassungsfaktor"].sum() == 400` (consumption.py line 1061). -/
def petrolRegionAxisLoop (bze : QMat) (real : List ℚ) (meanValue : ℚ)
    (spez model : QMat) : RegionLoopResult :=
  regionAxisLoop 400 bze real meanValue 10 0 spez model

/-- Scalar mirror of `regionAxisLoop` for uniform states: `n` regions, one
sector, every employment cell `b`, every real anchor `re`, every
specific-consumption cell `s` and every model cell `m`. -/
structure RegionLoopResultU where
  s : ℚ
  m : ℚ
  iters : ℕ
  earlyExit : Bool
deriving DecidableEq, Repr

/-- The scalar evolution of `regionAxisLoop` on uniform states. -/
def regionAxisLoopU (exitConst : ℚ) (n : ℕ) (b re mean : ℚ) :
    ℕ → ℕ → ℚ → ℚ → RegionLoopResultU
  | 0, i, s, m => ⟨s, m, i, false⟩
  | fuel + 1, i, s, m =>
    let fac := if 1/10 < |(re - m) / mean| then re / m else 1
    if (n : ℚ) * fac = exitConst then ⟨s, m, i + 1, true⟩
    else if i + 1 < 10 then
      let s3 := (if s * fac < 10 then 10 else s * fac) * ((n : ℚ) * re / ((n : ℚ) * m))
      regionAxisLoopU exitConst n b re mean fuel (i + 1) s3 (b * s3)
    else ⟨s, m, i + 1, false⟩

theorem zipWithReplicate {α β γ : Type} (f : α → β → γ) (n : ℕ) (a : α) (b : β) :
    List.zipWith f (List.replicate n a) (List.replicate n b) =
      List.replicate n (f a b) := by
  induction n with
  | zero => rfl
  | succ k ih => simp [List.replicate_succ, ih]

theorem sumReplicateQ (n : ℕ) (x : ℚ) :
    (List.replicate n x).sum = (n : ℚ) * x := by
  induction n with
  | zero => simp
  | succ k ih =>
      rw [List.replicate_succ, List.sum_cons, ih]
      push_cast
      ring

theorem colSums_singleton (r : List ℚ) : colSums [r] = r := rfl

theorem regionFactors_replicate (n : ℕ) (re m mean : ℚ) :
    regionFactors (List.replicate n re) (List.replicate n m) mean =
      List.replicate n (if 1/10 < |(re - m) / mean| then re / m else 1) :=
  zipWithReplicate _ n re m

theorem mulCols_replicate (n : ℕ) (s fac : ℚ) :
    mulCols [List.replicate n s] (List.replicate n fac) =
      [List.replicate n (s * fac)] := by
  simp [mulCols, zipWithReplicate]

theorem clampFloor10_replicate (n : ℕ) (x : ℚ) :
    clampFloor10 [List.replicate n x] =
      [List.replicate n (if x < 10 then 10 else x)] := by
  simp [clampFloor10, List.map_replicate]

theorem scaleMat_replicate (n : ℕ) (x c : ℚ) :
    scaleMat [List.replicate n x] c = [List.replicate n (x * c)] := by
  simp [scaleMat, List.map_replicate]

theorem matMulElem_replicate (n : ℕ) (b s : ℚ) :
    matMulElem [List.replicate n b] [List.replicate n s] =
      [List.replicate n (b * s)] := by
  simp [matMulElem, zipWithReplicate]

/-- On uniform states the region-axis loop is exactly its scalar mirror,
broadcast over the `n` regions. -/
theorem regionAxisLoop_uniform (exitConst : ℚ) (n : ℕ) (b re mean : ℚ)
    (fuel i : ℕ) (s m : ℚ) :
    regionAxisLoop exitConst [List.replicate n b] (List.replicate n re) mean
      fuel i [List.replicate n s] [List.replicate n m] =
    ⟨[List.replicate n (regionAxisLoopU exitConst n b re mean fuel i s m).s],
     [List.replicate n (regionAxisLoopU exitConst n b re mean fuel i s m).m],
     (regionAxisLoopU exitConst n b re mean fuel i s m).iters,
     (regionAxisLoopU exitConst n b re mean fuel i s m).earlyExit⟩ := by
  induction fuel generalizing i s m with
  | zero => rfl
  | succ k ih =>
      simp only [regionAxisLoop, regionAxisLoopU, colSums_singleton,
        regionFactors_replicate, sumReplicateQ, mulCols_replicate,
        clampFloor10_replicate, scaleMat_replicate, matMulElem_replicate]
      split_ifs <;> first | rfl | exact ih _ _ _

theorem allReplicate {α : Type} (n : ℕ) (a : α) (p : α → Bool)
    (h : p a = true) : (List.replicate n a).all p = true := by
  induction n with
  | zero => rfl
  | succ k ih => simp [List.replicate_succ, h, ih]

/-- Claim C2 (the code contradicts its own stated intent here): with the 400
normalized regions, a state in which every region's correction factor is 1
makes the factor sum 400, so the gas and petrol region-axis loops exit on
their first pass as the claim describes - but the power region-axis loop
compares the sum against 401, never exits early, and burns its whole
10-pass budget on the identical converged state. -/
theorem region_axis_exit_constant_power_bug :
    (regionFactors (List.replicate 400 10) (colSums [List.replicate 400 (10:ℚ)]) 10).all
        (fun f => decide (f = 1)) = true ∧
    (regionFactors (List.replicate 400 10) (colSums [List.replicate 400 (10:ℚ)]) 10).sum
        = 400 ∧
    (gasRegionAxisLoop [List.replicate 400 1] (List.replicate 400 10) 10
        [List.replicate 400 10] [List.replicate 400 10]).earlyExit = true ∧
    (gasRegionAxisLoop [List.replicate 400 1] (List.replicate 400 10) 10
        [List.replicate 400 10] [List.replicate 400 10]).iters = 1 ∧
    (petrolRegionAxisLoop [List.replicate 400 1] (List.replicate 400 10) 10
        [List.replicate 400 10] [List.replicate 400 10]).earlyExit = true ∧
    (powerRegionAxisLoop [List.replicate 400 1] (List.replicate 400 10) 10
        [List.replicate 400 10] [List.replicate 400 10]).earlyExit = false ∧
    (powerRegionAxisLoop [List.replicate 400 1] (List.replicate 400 10) 10
        [List.replicate 400 10] [List.replicate 400 10]).iters = 10 := by
  have hfac : regionFactors (List.replicate 400 10)
      (colSums [List.replicate 400 (10:ℚ)]) 10 = List.replicate 400 1 := by
    rw [colSums_singleton, regionFactors_replicate]
    norm_num
  refine ⟨?_, ?_, ?_, ?_, ?_, ?_, ?_⟩
  · rw [hfac]; exact allReplicate _ _ _ (by decide)
  · rw [hfac, sumReplicateQ]; norm_num
  · rw [gasRegionAxisLoop, regionAxisLoop_uniform]; decide
  · rw [gasRegionAxisLoop, regionAxisLoop_uniform]; decide
  · rw [petrolRegionAxisLoop, regionAxisLoop_uniform]; decide
  · rw [powerRegionAxisLoop, regionAxisLoop_uniform]; decide
  · rw [powerRegionAxisLoop, regionAxisLoop_uniform]; decide

/-- Counterexample to claim C3: a gas region-axis run in which every clamp is
applied, yet the rescaling that follows each clamp drags every cell down to
5/4, far below the floor of 10: the loop's final adjusted
specific-consumption matrix violates the claimed invariant. -/
theorem clamp_floor_violated_after_rescale :
    (gasRegionAxisLoop [List.replicate 400 1] (List.replicate 400 5) 5
        [List.replicate 400 40] [List.replicate 400 40]).spez =
      [List.replicate 400 (5/4)] ∧ ((5 : ℚ)/4 < 10) := by
  constructor
  · rw [gasRegionAxisLoop, regionAxisLoop_uniform]
    have hs : (regionAxisLoopU 400 400 1 5 5 10 0 40 40).s = 5/4 := by decide
    rw [hs]
  · norm_num

/-- Claim C3 (amended): the floor of 10 holds for every cell immediately after
the clamp step `spez[spez < 10] = 10`; it is the subsequent rescaling by
`sum(real) / sum(model)` (and the Wolfsburg column patch of the final
assembly) that can push cells back below 10, so the floor is not an invariant
of the loop's final state. -/
theorem clamp_floor_after_clamp (mat : QMat) (row : List ℚ) (x : ℚ)
    (hrow : row ∈ clampFloor10 mat) (hx : x ∈ row) : 10 ≤ x := by
  rcases List.mem_map.mp hrow with ⟨row0, _, rfl⟩
  rcases List.mem_map.mp hx with ⟨x0, _, rfl⟩
  split_ifs with h
  · exact le_refl _
  · exact le_of_not_lt h

/-- Witness for the amended C3 at a concrete input: the cell 3 of a matrix is
clamped to 10, which satisfies the floor. -/
theorem clamp_floor_after_clamp_witness : (10 : ℚ) ≤ 10 :=
  clamp_floor_after_clamp [[3]] [10] 10 (by decide) (by decide)

/-- Column labels of the consumption table handed to
`disaggregate_temporal_industry`: after `columns.astype(str)` each label is a
string; `num n` stands for a label on which `int(col)` succeeds with value
`n`, `other` for one on which it raises `ValueError`. -/
inductive ColLabel where
  | num (n : ℤ)
  | other (s : String)
deriving DecidableEq, Repr

/-- The shift-load-profile table `slp`: a time index and one profile series
per (federal state, load profile name) column. -/
structure SLPTable where
  index : List ℕ
  profiles : List ((String × String) × List ℚ)
deriving DecidableEq, Repr

/-- The consumption input of `disaggregate_temporal_industry`: regional ids as
row index, sector column labels, and one possibly-NaN value per cell. -/
structure ConsumptionTable where
  regions : List ℤ
  cols : List ColLabel
  values : List (List (Option ℚ))
deriving DecidableEq, Repr

/-- `consumption_data.sum().sum()` (temporal.py line 57), computed over ALL
columns before any filtering; pandas sums skip NaN cells. -/
def startTotal (data : ConsumptionTable) : ℚ :=
  (data.values.map (fun r => (r.map (fun x => x.getD 0)).sum)).sum

/-- The column filter and `stack()` steps (temporal.py lines 70-93): keep the
columns that parse as an int present in the shift-profile mapping and stack
row-major into (regional_id, industry_sector, annual_value) triples.
`DataFrame.stack()` is called with its defaults, and under the pandas 2.x
versions this repository runs on (it uses `infer_objects(copy=False)`, which
needs pandas >= 2.0, and the `freq="15T"`/`freq="H"` aliases removed in 3.0)
the default `dropna=True` silently drops NaN cells here - so a NaN annual
value never reaches the `pd.isna` check of the loop.  The cell type stays
`Option ℚ` because that check is part of the loop body in the source. -/
def stackCells (pmap : List (ℤ × String)) (data : ConsumptionTable) :
    List (ℤ × ℤ × Option ℚ) :=
  ((List.zip data.regions data.values).map (fun p =>
    (List.zip data.cols p.2).filterMap (fun cv =>
      match cv.1 with
      | ColLabel.num n =>
          if (plookup pmap n).isSome then
            match cv.2 with
            | some q => some (p.1, n, some q)
            | none => none
          else none
      | ColLabel.other _ => none))).flatten

/-- `state_num = int(regional_id) // 1000` (temporal.py line 116): Python
floor division. -/
def federalStateNum (regionalId : ℤ) : ℤ := Int.fdiv regionalId 1000

/-- One iteration body of the disaggregation loop (temporal.py lines 114-128)
for a non-NaN annual value: look up the federal state, the profile name and
the profile series, and multiply the series by the annual value; a failing
lookup (`KeyError`) skips the combination with a warning. -/
def processCell (smap pmap : List (ℤ × String)) (slp : SLPTable)
    (regionalId sector : ℤ) (annual : ℚ) : Option ((ℤ × ℤ) × List ℚ) :=
  match plookup smap (federalStateNum regionalId) with
  | none => none
  | some stateAbbr =>
    match plookup pmap sector with
    | none => none
    | some profileName =>
      match plookup slp.profiles (stateAbbr, profileName) with
      | none => none
      | some profile => some ((regionalId, sector), profile.map (fun p => p * annual))

/-- The error message raised on a NaN annual value (temporal.py lines
106-113). -/
def nanMsg (regionalId sector : ℤ) : String :=
  "NaN value found for annual_consumption at index (" ++ toString regionalId ++
    ", " ++ toString sector ++ "). Processing cannot continue with NaN values."

/-- The disaggregation loop (temporal.py lines 101-152): process the stacked
combinations in order; a NaN annual value raises immediately, a failed lookup
skips the combination, a successful one appends its series. -/
def processCombinations (smap pmap : List (ℤ × String)) (slp : SLPTable) :
    List (ℤ × ℤ × Option ℚ) → Except String (List ((ℤ × ℤ) × List ℚ))
  | [] => .ok []
  | (r, s, none) :: _ => .error (nanMsg r s)
  | (r, s, some v) :: rest =>
    match processCombinations smap pmap slp rest with
    | .error e => .error e
    | .ok tail =>
      match processCell smap pmap slp r s v with
      | none => .ok tail
      | some entry => .ok (entry :: tail)

/-- The result frame of `disaggregate_temporal_industry`: the time index and
one series per processed (regional_id, industry_sector) column. -/
structure TemporalOutput where
  index : List ℕ
  columns : List ((ℤ × ℤ) × List ℚ)
deriving DecidableEq, Repr

/-- `final_df.sum().sum()` (temporal.py line 172). -/
def outputTotal (results : List ((ℤ × ℤ) × List ℚ)) : ℚ :=
  (results.map (fun p => p.2.sum)).sum

/-- `disaggregate_temporal_industry` (temporal.py lines 17-180): compute the
start total over all columns, stack and process the mapped columns, return an
empty frame when nothing was processed, and otherwise check the final total
against the start total with `np.isclose` (rtol `1e-5`, atol `1e-8`),
raising on a mismatch. -/
def disaggregate_temporal_industry (slp : SLPTable)
    (smap pmap : List (ℤ × String)) (data : ConsumptionTable) :
    Except String TemporalOutput :=
  let totalStart := startTotal data
  match processCombinations smap pmap slp (stackCells pmap data) with
  | .error e => .error e
  | .ok results =>
    if results.isEmpty then .ok ⟨slp.index, []⟩
    else if npIsClose (1/100000) (1/100000000) (outputTotal results) totalStart then
      .ok ⟨slp.index, results⟩
    else .error "Total consumption is not the same as the start"

/-- Claim C5: whenever `disaggregate_temporal_industry` returns through its
normal non-empty path, the grand total of the returned cube passes the
`np.isclose` comparison against the grand total of ALL input annual values -
computed before the unmapped columns are dropped - and when that comparison
fails for a non-empty result, the function raises instead of returning. -/
theorem temporal_industry_total_conservation (slp : SLPTable)
    (smap pmap : List (ℤ × String)) (data : ConsumptionTable) :
    (∀ out, disaggregate_temporal_industry slp smap pmap data = .ok out →
      out.columns ≠ [] →
      npIsClose (1/100000) (1/100000000) (outputTotal out.columns)
        (startTotal data) = true) ∧
    (∀ results,
      processCombinations smap pmap slp (stackCells pmap data) = .ok results →
      results ≠ [] →
      npIsClose (1/100000) (1/100000000) (outputTotal results)
        (startTotal data) = false →
      ∃ msg, disaggregate_temporal_industry slp smap pmap data = .error msg) := by
  constructor
  · intro out hout hne
    simp only [disaggregate_temporal_industry] at hout
    cases hp : processCombinations smap pmap slp (stackCells pmap data) with
    | error e => simp only [hp] at hout; cases hout
    | ok results =>
        simp only [hp] at hout
        by_cases he : results.isEmpty = true
        · rw [if_pos he] at hout
          have h2 := Except.ok.inj hout
          rw [← h2] at hne
          exact absurd rfl hne
        · rw [if_neg he] at hout
          by_cases hc : npIsClose (1/100000) (1/100000000) (outputTotal results)
              (startTotal data) = true
          · rw [if_pos hc] at hout
            have h2 := Except.ok.inj hout
            rw [← h2]
            exact hc
          · rw [if_neg hc] at hout
            cases hout
  · intro results hp hne hcfalse
    simp only [disaggregate_temporal_industry, hp]
    cases results with
    | nil => exact absurd rfl hne
    | cons x xs =>
        rw [if_neg (by simp), if_neg (by rw [hcfalse]; exact Bool.false_ne_true)]
        exact ⟨_, rfl⟩

/-- Witness for C5 at a concrete input: one region, one mapped sector with
annual value 5 and the one-step unit profile; the function returns the series
[5] and the conservation comparison holds. -/
theorem temporal_industry_total_conservation_witness :
    npIsClose (1/100000) (1/100000000) (outputTotal [((1000, 10), [5])])
      (startTotal ⟨[1000], [ColLabel.num 10], [[some 5]]⟩) = true := by
  have h := (temporal_industry_total_conservation
      ⟨[0], [(("BW", "P1"), [1])]⟩ [(1, "BW")] [(10, "P1")]
      ⟨[1000], [ColLabel.num 10], [[some 5]]⟩).1
    ⟨[0], [((1000, 10), [5])]⟩ (by rfl) (by decide)
  exact h

theorem processCombinations_first_nan (smap pmap : List (ℤ × String))
    (slp : SLPTable) (pre : List (ℤ × ℤ × Option ℚ)) (r s : ℤ)
    (post : List (ℤ × ℤ × Option ℚ)) (hpre : ∀ c ∈ pre, c.2.2 ≠ none) :
    processCombinations smap pmap slp (pre ++ (r, s, (none : Option ℚ)) :: post) =
      .error (nanMsg r s) := by
  induction pre with
  | nil => rfl
  | cons c cs ih =>
      obtain ⟨r0, s0, v0⟩ := c
      have hv0 : v0 ≠ none := hpre (r0, s0, v0) (List.mem_cons_self _ _)
      obtain ⟨q, rfl⟩ := Option.ne_none_iff_exists'.mp hv0
      have hcs : ∀ c ∈ cs, c.2.2 ≠ none :=
        fun c hc => hpre c (List.mem_cons_of_mem _ hc)
      simp only [List.cons_append, processCombinations, List.append_eq, ih hcs]

theorem map_mul_zero_replicate (l : List ℚ) :
    l.map (fun p => p * 0) = List.replicate l.length 0 := by
  induction l with
  | nil => rfl
  | cons x xs ih => simp [List.replicate_succ, ih]

/-- An annual value of exactly 0 flows through the normal path of the
disaggregation loop (temporal.py lines 114-128) and yields the all-zero
series of the profile's full length. -/
theorem processCell_zero (slp : SLPTable) (smap pmap : List (ℤ × String))
    (r s : ℤ) (stateAbbr profileName : String) (profile : List ℚ)
    (h1 : plookup smap (federalStateNum r) = some stateAbbr)
    (h2 : plookup pmap s = some profileName)
    (h3 : plookup slp.profiles (stateAbbr, profileName) = some profile) :
    processCell smap pmap slp r s 0 =
      some ((r, s), List.replicate profile.length 0) := by
  simp only [processCell, h1, h2, h3, map_mul_zero_replicate]

/-- The stacked combinations never contain a NaN value: `stack()` under its
pandas-2.x default `dropna=True` drops every NaN cell, so the `pd.isna` check
at temporal.py line 106 - which `processCombinations_first_nan` shows would
raise immediately if a NaN ever reached it - is dead code. -/
theorem stackCells_no_nan (pmap : List (ℤ × String)) (data : ConsumptionTable)
    (c : ℤ × ℤ × Option ℚ) (hc : c ∈ stackCells pmap data) : c.2.2 ≠ none := by
  unfold stackCells at hc
  rcases List.mem_flatten.mp hc with ⟨l, hl, hcl⟩
  rcases List.mem_map.mp hl with ⟨p, _, rfl⟩
  rcases List.mem_filterMap.mp hcl with ⟨cv, _, hcv⟩
  rcases cv with ⟨cl, v⟩
  cases cl with
  | num n =>
      by_cases hmem : (plookup pmap n).isSome = true
      · cases v with
        | some q =>
            simp only [hmem, if_true] at hcv
            rw [← Option.some.inj hcv]
            exact Option.noConfusion
        | none => simp [hmem] at hcv
      · simp [hmem] at hcv
  | other s => simp at hcv

/-- Claim C6 (code bug): the function's own docstring promises a `ValueError`
when a NaN value is found in the consumption data after stacking, and the
loop carries an explicit `pd.isna` check for it (temporal.py lines 47-48 and
105-113) - but `stack()` has already dropped the NaN cells, so the program
never raises.  At the failing input below, the cell (1000, 10) is NaN: the
stack silently excludes it, the loop never sees it, the start total (computed
with `skipna`) is unaffected, the conservation comparison passes, and the
call returns a normal frame that is simply missing that column.  The zero
half of the claim does hold: an annual value of 0 produces the all-zero
series of full length. -/
theorem temporal_industry_nan_dropped_silently :
    stackCells [(10, "P1"), (11, "P1")]
        ⟨[1000], [ColLabel.num 10, ColLabel.num 11], [[none, some 5]]⟩ =
      [(1000, 11, some 5)] ∧
    disaggregate_temporal_industry ⟨[0], [(("BW", "P1"), [1])]⟩ [(1, "BW")]
        [(10, "P1"), (11, "P1")]
        ⟨[1000], [ColLabel.num 10, ColLabel.num 11], [[none, some 5]]⟩ =
      .ok ⟨[0], [((1000, 11), [5])]⟩ ∧
    processCell [(1, "BW")] [(10, "P1"), (11, "P1")] ⟨[0], [(("BW", "P1"), [1])]⟩
        1000 10 0 = some ((1000, 10), [0]) :=
  ⟨rfl, rfl, rfl⟩

/-- Claim C10: when the disaggregation loop of
`disaggregate_temporal_industry` processes no combination at all, the function
returns a frame with the load-profile time index and zero columns instead of
raising, skipping the final conservation check entirely - whatever the input
totals are. -/
theorem temporal_industry_empty_result (slp : SLPTable)
    (smap pmap : List (ℤ × String)) (data : ConsumptionTable)
    (h : processCombinations smap pmap slp (stackCells pmap data) = .ok []) :
    disaggregate_temporal_industry slp smap pmap data = .ok ⟨slp.index, []⟩ := by
  simp only [disaggregate_temporal_industry, h]
  rfl

/-- Witness for C10 at a concrete input: every column is unmapped and the
annual values sum to 5, yet the function returns the empty frame and no
conservation error. -/
theorem temporal_industry_empty_result_witness :
    startTotal ⟨[1000], [ColLabel.other "x"], [[some 5]]⟩ ≠ 0 ∧
    disaggregate_temporal_industry ⟨[0], []⟩ [] []
        ⟨[1000], [ColLabel.other "x"], [[some 5]]⟩ = .ok ⟨[0], []⟩ :=
  ⟨by decide, temporal_industry_empty_result ⟨[0], []⟩ [] []
    ⟨[1000], [ColLabel.other "x"], [[some 5]]⟩ (by rfl)⟩

end Dissag
